import Mathlib

/-!
Shallow embedding of the Catalyst tracing front-end
(src/frontend/catalyst/pennylane_extensions.py).

The external JAX tracing engine is out of scope (spec section 1): the
capture procedure (jax.make_jaxpr / _initial_style_jaxpr) is modelled by
passing its *results* (a captured jaxpr, captured constants, an output
tree) as explicit inputs to the embedded functions, while the structural
work this file performs (flattening, slicing, validation, node emission)
is translated from the source line by line.

Python exceptions are modelled by an `Except Err` result; raising before
an IR node is emitted corresponds to an `.error` result that carries no
node.
-/

namespace Catalyst

/-- Element dtypes of JAX shaped arrays, as far as this front-end
inspects them (`jnp.bool_` is the only dtype compared against). -/
inductive DType where
  | bool
  | i64
  | f64
deriving DecidableEq

/-- JAX abstract values as used by this front-end: `ShapedArray`s
(shape, dtype, weak-type flag, named shape) plus the opaque quantum
register abstract value of `catalyst.jax_primitives.Qreg`, which is not
a `ShapedArray`. -/
inductive AVal where
  | shaped (shape : List Nat) (dtype : DType) (weakType : Bool)
      (namedShape : List (String × Nat))
  | qreg
deriving DecidableEq

instance : Inhabited AVal := ⟨AVal.qreg⟩

/-- Embeds `isinstance(aval, ShapedArray)`. -/
def AVal.isShapedArray : AVal → Bool
  | .shaped _ _ _ _ => true
  | .qreg => false

/-- Embeds `aval.strip_weak_type()`. -/
def AVal.stripWeakType : AVal → AVal
  | .shaped s d _ n => .shaped s d false n
  | .qreg => .qreg

/-- Embeds `aval.strip_named_shape()`. -/
def AVal.stripNamedShape : AVal → AVal
  | .shaped s d w _ => .shaped s d w []
  | .qreg => .qreg

/-- Embeds `ShapedArray((), jnp.bool_)`: a fresh boolean scalar abstract value
(not weak, empty named shape). -/
def boolScalarAVal : AVal := .shaped [] .bool false []

/-- JAX pytree definitions (`treedef`s), as far as this front-end
inspects them: a leaf, the `None` node (zero leaves), or an interior
tuple/list node. -/
inductive PyTree where
  | leaf
  | noneNode
  | tupleNode (children : List PyTree)

/-- Embeds `treedef_is_leaf`. -/
def PyTree.isLeaf : PyTree → Bool
  | .leaf => true
  | _ => false

/-- Python values handed to `tree_flatten`: a leaf value is identified
by its abstract type (`_abstractify`), `None`, or a tuple of values. -/
inductive PyVal where
  | leafV (a : AVal)
  | noneV
  | tupleV (xs : List PyVal)

/-- Decidable equality for `PyVal` (not derivable automatically for a
nested inductive). -/
def PyVal.decEq : (a b : PyVal) → Decidable (a = b)
  | .leafV x, .leafV y =>
    if h : x = y then isTrue (by rw [h])
    else isFalse (fun hh => by injection hh; contradiction)
  | .leafV _, .noneV => isFalse (fun h => PyVal.noConfusion h)
  | .leafV _, .tupleV _ => isFalse (fun h => PyVal.noConfusion h)
  | .noneV, .leafV _ => isFalse (fun h => PyVal.noConfusion h)
  | .noneV, .noneV => isTrue rfl
  | .noneV, .tupleV _ => isFalse (fun h => PyVal.noConfusion h)
  | .tupleV _, .leafV _ => isFalse (fun h => PyVal.noConfusion h)
  | .tupleV _, .noneV => isFalse (fun h => PyVal.noConfusion h)
  | .tupleV [], .tupleV [] => isTrue rfl
  | .tupleV [], .tupleV (_ :: _) => isFalse (fun h => by injection h; contradiction)
  | .tupleV (_ :: _), .tupleV [] => isFalse (fun h => by injection h; contradiction)
  | .tupleV (x :: xs), .tupleV (y :: ys) =>
    match PyVal.decEq x y, PyVal.decEq (.tupleV xs) (.tupleV ys) with
    | isTrue h1, isTrue h2 => isTrue (by injection h2 with h2; rw [h1, h2])
    | isFalse h1, _ => isFalse (fun hh => by
        injection hh with hh
        injection hh with hh1 hh2
        exact h1 hh1)
    | _, isFalse h2 => isFalse (fun hh => by
        injection hh with hh
        injection hh with hh1 hh2
        exact h2 (by rw [hh2]))

instance : DecidableEq PyVal := PyVal.decEq

/-- Embeds `jprim.Qreg()`: a fresh quantum register value (a pytree leaf whose
abstract value is the register aval). -/
def QregV : PyVal := .leafV .qreg

mutual

/-- The leaves component of `tree_flatten` (leaves are collected left to
right; `None` contributes no leaves). -/
def PyVal.flatten : PyVal → List PyVal
  | .leafV a => [.leafV a]
  | .noneV => []
  | .tupleV xs => PyVal.flattenList xs

/-- Recursion of `tree_flatten` over the children of a tuple node. -/
def PyVal.flattenList : List PyVal → List PyVal
  | [] => []
  | x :: xs => x.flatten ++ PyVal.flattenList xs

end

/-- Embeds `_abstractify` on a flattened leaf (non-leaf values never reach it
in this front-end; they are mapped to the register aval arbitrarily). -/
def abstractify : PyVal → AVal
  | .leafV a => a
  | _ => .qreg

/-- IR primitives distinguished by this front-end. -/
inductive Primitive where
  | func
  | grad
  | qcond
  | qwhile
  | qfor
  | other (name : String)
deriving DecidableEq

/-- One equation of a captured program; the front-end only inspects the
primitive being bound. -/
structure Eqn where
  primitive : Primitive
deriving DecidableEq

instance : Inhabited Eqn := ⟨⟨.other ""⟩⟩

/-- A captured sub-program (closed jaxpr) as inspected by this
front-end: its equations and its output abstract values. -/
structure Jaxpr where
  eqns : List Eqn
  out_avals : List AVal
deriving DecidableEq

/-- Python exceptions raised by the embedded code, tagged by their
Python class.  The spec taxonomy maps onto them as follows:
`TypeMismatchError` is `TypeError`, `UsageError` is `ValueError` (or
the decoration-time `AssertionError` on argument counts), and
`ConfigurationError` / `InternalConsistencyError` are `AssertionError`s
raised at construction / call time. -/
inductive Err where
  | typeError (msg : String)
  | valueError (msg : String)
  | assertionError (msg : String)
deriving DecidableEq

/-- The result of the external capture procedure
(`_initial_style_jaxpr`): a captured jaxpr, the captured constants, and
the output tree. -/
structure Capture where
  jaxpr : Jaxpr
  consts : List PyVal
  tree : PyTree

/-- A Python callable as inspected at decoration time:
`fn.__code__.co_argcount` is its number of explicit parameters. -/
structure PyFunc where
  argcount : Nat
deriving DecidableEq

/-! ## Conditionals (`cond` / `CondCallable`) -/

namespace CondCallable

/-- Embeds `CondCallable.check_branches_return_types`: compares
`true_jaxpr.out_avals[:-1]` with `false_jaxpr.out_avals[:-1]`
(`List.dropLast` is the Python slice `[:-1]`) and raises `TypeError`
when they differ. -/
def check_branches_return_types (true_jaxpr false_jaxpr : Jaxpr) :
    Except Err Unit :=
  if true_jaxpr.out_avals.dropLast ≠ false_jaxpr.out_avals.dropLast then
    .error (.typeError "Conditional branches require the same return type")
  else
    .ok ()

end CondCallable

/-- The `Cond` operation node (quantum mode) and, in classical mode, the
arguments of the emitted `jprim.qcond` primitive: predicate, combined
captured constants, and the two branch sub-programs. -/
structure CondNode where
  pred : PyVal
  consts : List PyVal
  true_jaxpr : Jaxpr
  false_jaxpr : Jaxpr
  out_tree : PyTree

namespace CondCallable

/-- Embeds `CondCallable.call_with_classical_ctx`: the external capture of
`(self.true_fn, self.false_fn)` over no arguments is supplied as the
two `Capture`s sharing the common constants `consts`; the branch check
runs first, and only on success is the `qcond` node emitted. -/
def call_with_classical_ctx (pred : PyVal) (trueCap falseCap : Capture)
    (consts : List PyVal) : Except Err CondNode :=
  match check_branches_return_types trueCap.jaxpr falseCap.jaxpr with
  | .error e => .error e
  | .ok _ =>
      .ok ⟨pred, consts, trueCap.jaxpr, falseCap.jaxpr, trueCap.tree⟩

/-- Embeds `CondCallable.call_with_quantum_ctx`: the two branches are first
wrapped to thread the register (`new_true_fn`/`new_false_fn`, captured
over a single fresh `Qreg` argument); the same branch check runs and
only on success is the `Cond` operation node constructed. -/
def call_with_quantum_ctx (pred : PyVal) (trueCap falseCap : Capture)
    (consts : List PyVal) : Except Err CondNode :=
  match check_branches_return_types trueCap.jaxpr falseCap.jaxpr with
  | .error e => .error e
  | .ok _ =>
      .ok ⟨pred, consts, trueCap.jaxpr, falseCap.jaxpr, trueCap.tree⟩

end CondCallable

/-- Embeds `CondCallable.__init__` state: predicate, true branch, and the false
branch (defaulting to `lambda: None`, a zero-argument callable). -/
structure CondCallableObj where
  pred : PyVal
  true_fn : PyFunc
  false_fn : PyFunc
deriving DecidableEq

/-- The default false branch `lambda: None`. -/
def defaultFalseFn : PyFunc := ⟨0⟩

/-- Embeds the inner `decorator` of `cond(pred)`: asserts
`true_fn.__code__.co_argcount == 0` before constructing the
`CondCallable`. -/
def cond (pred : PyVal) (true_fn : PyFunc) : Except Err CondCallableObj :=
  if true_fn.argcount ≠ 0 then
    .error (.assertionError
      "conditional True function is not allowed to have any arguments")
  else
    .ok ⟨pred, true_fn, defaultFalseFn⟩

/-- Embeds `CondCallable.otherwise`: asserts
`false_fn.__code__.co_argcount == 0` before attaching the false
branch. -/
def CondCallableObj.otherwise (c : CondCallableObj) (false_fn : PyFunc) :
    Except Err CondCallableObj :=
  if false_fn.argcount ≠ 0 then
    .error (.assertionError
      "conditional False function is not allowed to have any arguments")
  else
    .ok { c with false_fn := false_fn }

/-! ## While loops (`while_loop` / `WhileCallable`) -/

namespace WhileCallable

/-- Embeds `WhileCallable._create_jaxpr`: flattens `init_val`, captures the
predicate and body over the flattened abstract inputs (the captures are
supplied as `condCap` / `bodyCap`), then validates the predicate
sub-program: its output tree must be a leaf, its output list must have
length 1, and its sole output must be a `ShapedArray` equal (after
stripping the weak type and named shape) to `ShapedArray((), bool)`.
Returns the tuple
`(body_jaxpr, cond_jaxpr, cond_consts, body_consts, body_tree)`. -/
def create_jaxpr (init_val : PyVal) (condCap bodyCap : Capture) :
    Except Err (Jaxpr × Jaxpr × List PyVal × List PyVal × PyTree) :=
  let _init_avals := (init_val.flatten).map abstractify
  let cond_jaxpr := condCap.jaxpr
  let cond_tree := condCap.tree
  let body_jaxpr := bodyCap.jaxpr
  if ¬cond_tree.isLeaf ∨ cond_jaxpr.out_avals.length ≠ 1 then
    .error (.typeError "cond_fun must return a boolean scalar, but got pytree")
  else
    let pred_aval := cond_jaxpr.out_avals.headI
    if ¬pred_aval.isShapedArray ∨
        pred_aval.stripWeakType.stripNamedShape ≠ boolScalarAVal then
      .error (.typeError
        "cond_fun must return a boolean scalar, but got output type")
    else
      .ok (body_jaxpr, cond_jaxpr, condCap.consts, bodyCap.consts, bodyCap.tree)

/-- The wrapper `new_cond` defined inside
`WhileCallable.call_with_quantum_ctx`: it receives the full argument
tuple including the trailing register and applies the user predicate to
`args_and_qreg[:-1]` only. -/
def new_cond (cond_fn : List PyVal → PyVal) (args_and_qreg : List PyVal) :
    PyVal :=
  cond_fn args_and_qreg.dropLast

/-- The initial value handed to `_create_jaxpr` in quantum mode:
`(*args, jprim.Qreg())`. -/
def quantum_init_val (args : List PyVal) : PyVal :=
  .tupleV (args ++ [QregV])

/-- The abstract inputs over which the predicate and body sub-programs
are captured in quantum mode (`init_avals` inside `_create_jaxpr`). -/
def quantum_capture_avals (args : List PyVal) : List AVal :=
  ((quantum_init_val args).flatten).map abstractify

end WhileCallable

/-- The `WhileLoop` operation node (quantum mode). -/
structure WhileLoopNode where
  iter_args : List PyVal
  body_jaxpr : Jaxpr
  cond_jaxpr : Jaxpr
  cond_consts : List PyVal
  body_consts : List PyVal
  body_tree : PyTree

/-- The arguments of the `jprim.qwhile` primitive emitted in classical
mode. -/
structure QwhileCall where
  cond_jaxpr : Jaxpr
  body_jaxpr : Jaxpr
  num_cond_consts : Nat
  num_body_consts : Nat
  inputs : List PyVal

namespace WhileCallable

/-- Embeds `WhileCallable.call_with_quantum_ctx`: `_create_jaxpr` is invoked on
`(*args, jprim.Qreg())`; only on success is the `WhileLoop` node built,
with `iter_args = tree_flatten(args)[0]` (the register excluded). -/
def call_with_quantum_ctx (args : List PyVal) (condCap bodyCap : Capture) :
    Except Err WhileLoopNode :=
  match create_jaxpr (quantum_init_val args) condCap bodyCap with
  | .error e => .error e
  | .ok (body_jaxpr, cond_jaxpr, cond_consts, body_consts, body_tree) =>
      let flat_init_vals_no_qubits := (PyVal.tupleV args).flatten
      .ok ⟨flat_init_vals_no_qubits, body_jaxpr, cond_jaxpr, cond_consts,
        body_consts, body_tree⟩

/-- Embeds `WhileCallable.call_with_classical_ctx`: `_create_jaxpr` is invoked
on `args` directly; only on success is the `qwhile` primitive bound with
`inputs = cond_consts + body_consts + flat_init_vals_no_qubits`. -/
def call_with_classical_ctx (args : List PyVal) (condCap bodyCap : Capture) :
    Except Err QwhileCall :=
  match create_jaxpr (.tupleV args) condCap bodyCap with
  | .error e => .error e
  | .ok (body_jaxpr, cond_jaxpr, cond_consts, body_consts, _body_tree) =>
      let flat_init_vals_no_qubits := (PyVal.tupleV args).flatten
      .ok ⟨cond_jaxpr, body_jaxpr, cond_consts.length, body_consts.length,
        cond_consts ++ body_consts ++ flat_init_vals_no_qubits⟩

end WhileCallable

/-! ## Counted loops (`for_loop` / `ForLoopCallable`) -/

/-- The `ForLoop` operation node (quantum mode). -/
structure ForLoopNode where
  loop_bounds : List PyVal
  iter_args : List PyVal
  body_jaxpr : Jaxpr
  body_consts : List PyVal
  body_tree : PyTree

/-- The arguments of the `jprim.qfor` primitive emitted in classical
mode. -/
structure QforCall where
  body_jaxpr : Jaxpr
  num_body_consts : Nat
  inputs : List PyVal

/-- Result of tracing a counted loop in quantum mode: the emitted node
together with the abstract inputs (`init_avals`) over which the body
sub-program was captured. -/
structure ForLoopQuantumResult where
  node : ForLoopNode
  body_capture_avals : List AVal

/-- Result of tracing a counted loop in classical mode. -/
structure ForLoopClassicalResult where
  call : QforCall
  body_capture_avals : List AVal

namespace ForLoopCallable

/-- Embeds `ForLoopCallable.call_with_quantum_ctx`: first
`args = (self.lower_bound, *args)` inserts the iteration counter, then
`_create_jaxpr((*args, jprim.Qreg()), new_body)` captures the
register-threaded body, and the `ForLoop` node is built with
`loop_bounds = [lower_bound, upper_bound, step]` and
`iter_args = tree_flatten(args)[0]` where `args` is the tuple with the
counter prepended. -/
def call_with_quantum_ctx (lower_bound upper_bound step : PyVal)
    (args : List PyVal) (bodyCap : Capture) : ForLoopQuantumResult :=
  let args := lower_bound :: args
  let init_val := PyVal.tupleV (args ++ [QregV])
  let body_capture_avals := (init_val.flatten).map abstractify
  let flat_init_vals_no_qubits := (PyVal.tupleV args).flatten
  ⟨⟨[lower_bound, upper_bound, step], flat_init_vals_no_qubits,
      bodyCap.jaxpr, bodyCap.consts, bodyCap.tree⟩,
    body_capture_avals⟩

/-- Embeds `ForLoopCallable.call_with_classical_ctx`: the counter is prepended
the same way, the body is captured over the flattened prepended tuple,
and `jprim.qfor` is bound with
`inputs = [lower_bound, upper_bound, step] + body_consts +
flat_init_vals_no_qubits`. -/
def call_with_classical_ctx (lower_bound upper_bound step : PyVal)
    (args : List PyVal) (bodyCap : Capture) : ForLoopClassicalResult :=
  let args := lower_bound :: args
  let body_capture_avals := ((PyVal.tupleV args).flatten).map abstractify
  let flat_init_vals_no_qubits := (PyVal.tupleV args).flatten
  ⟨⟨bodyCap.jaxpr, bodyCap.consts.length,
      [lower_bound, upper_bound, step] ++ bodyCap.consts ++
        flat_init_vals_no_qubits⟩,
    body_capture_avals⟩

end ForLoopCallable

/-! ## Differentiation (`grad` / `Grad`) -/

/-- The Python value bound to the step-size parameter `h`: absent
(`None`), a number, or some other object (a string, say). -/
inductive HVal where
  | noneH
  | num (x : ℚ)
  | str (s : String)
deriving DecidableEq

/-- Embeds `isinstance(h, numbers.Number)`. -/
def HVal.isNumber : HVal → Bool
  | .num _ => true
  | _ => false

/-- The default finite-difference step size `1e-7`. -/
def default_fd_h : ℚ := 1 / 10000000

/-- What `Grad.__init__` receives as `fn`: either a `qml.QNode` (a
quantum program) or a `Function`-wrapped plain callable (never a
`QNode`). -/
inductive GradTarget where
  | qnode
  | function
deriving DecidableEq

/-- Embeds `isinstance(self.fn, qml.QNode)`. -/
def GradTarget.isQNode : GradTarget → Bool
  | .qnode => true
  | .function => false

/-- A constructed `Grad` object. -/
structure GradObj where
  fn : GradTarget
  method : String
  h : HVal
  argnum : List Int
deriving DecidableEq

/-- Embeds `Grad.__init__`: stores the configuration and, when the method is
not `"fd"`, asserts that the wrapped callable is a `qml.QNode`. -/
def Grad.init (fn : GradTarget) (method : String) (h : HVal)
    (argnum : List Int) : Except Err GradObj :=
  if method ≠ "fd" ∧ ¬fn.isQNode then
    .error (.assertionError
      "Only finite difference can compute higher order derivatives.")
  else
    .ok ⟨fn, method, h, argnum⟩

/-- The Python value bound to the `argnum` parameter: absent, a single
integer, or a list of integers. -/
inductive ArgnumArg where
  | noneA
  | intA (n : Int)
  | listA (l : List Int)
deriving DecidableEq

/-- The `grad` entry point: defaults the method to `"fd"`, asserts it is
one of `{"fd", "ps", "adj"}`, defaults `h` to `1e-7` for the `"fd"`
method, asserts `h` is absent or a number, defaults `argnum` to `[0]`
and normalizes a single integer to a one-element list, then constructs
the `Grad` object (wrapping a non-`QNode` callable in `Function`
first). -/
def grad (f_is_qnode : Bool) (method : Option String) (h : HVal)
    (argnum : ArgnumArg) : Except Err GradObj :=
  let method := method.getD "fd"
  if ¬(method = "fd" ∨ method = "ps" ∨ method = "adj") then
    .error (.assertionError "invalid differentiation method")
  else
    let h := if method = "fd" ∧ h = HVal.noneH then HVal.num default_fd_h else h
    if ¬(h = HVal.noneH ∨ h.isNumber) then
      .error (.assertionError "invalid h value")
    else
      let argnum := match argnum with
        | .noneA => [0]
        | .intA n => [n]
        | .listA l => l
      if f_is_qnode then
        Grad.init .qnode method h argnum
      else
        Grad.init .function method h argnum

/-- The `grad_p` IR node bound by `Grad.__call__`: the captured program
plus the differentiation metadata. -/
structure GradNode where
  jaxpr : Jaxpr
  method : String
  h : HVal
  argnum : List Int

/-- Embeds `Grad.__call__`: captures the wrapped callable (the capture result
is supplied as `jaxpr`), asserts the captured program has exactly one
equation and that its primitive is `func_p`, then binds `grad_p` with
the program and the stored configuration. -/
def Grad.call (g : GradObj) (jaxpr : Jaxpr) : Except Err GradNode :=
  if jaxpr.eqns.length ≠ 1 then
    .error (.assertionError "Grad is not well defined")
  else if jaxpr.eqns.headI.primitive ≠ Primitive.func then
    .error (.assertionError
      "Attempting to differentiate something other than a function")
  else
    .ok ⟨jaxpr, g.method, g.h, g.argnum⟩

/-! ## Operations, mid-circuit measurement, and the QJIT device -/

/-- Gate-level operations as distinguished by the device adapter:
Catalyst's own `MidCircuitMeasure`, PennyLane's foreign `MidMeasureMP`,
the two controlled-unitary constructs (`qml.ops.ControlledQubitUnitary`
and generic `qml.ops.Controlled` over a base gate), an explicit
`qml.QubitUnitary`, and any other named gate. -/
inductive Op where
  | midCircuitMeasure (measurement_id : List Char) (wires : Nat)
  | midMeasureMP (wires : Nat)
  | controlledQubitUnitary (wires : List Nat)
  | controlled (base : String) (wires : List Nat)
  | qubitUnitary (wires : List Nat)
  | gate (name : String) (wires : List Nat)
deriving DecidableEq

/-- Embeds `op.name` as consulted by the device vocabulary check. -/
def Op.name : Op → String
  | .midCircuitMeasure _ _ => "MidCircuitMeasure"
  | .midMeasureMP _ => "MidMeasureMP"
  | .controlledQubitUnitary _ => "ControlledQubitUnitary"
  | .controlled base _ => "C(" ++ base ++ ")"
  | .qubitUnitary _ => "QubitUnitary"
  | .gate n _ => n

/-- Embeds `isinstance(op, MidMeasureMP)`. -/
def Op.isMidMeasureMP : Op → Bool
  | .midMeasureMP _ => true
  | _ => false

/-- Embeds `MidCircuitMeasure.num_wires = 1`: the measurement node acts on a
single qubit. -/
def MidCircuitMeasure.num_wires : Nat := 1

/-- Embeds `qml.QueuingManager.active_context()`: when recording is active, it
holds the queue of operations constructed so far and may or may not
expose a `jax_tape` attribute (register-threading / tracing support). -/
structure QueuingContext where
  queue : List Op
  has_jax_tape : Bool
deriving DecidableEq

/-- A placeholder tracer created by `ctx.jax_tape.create_tracer(t, a)`:
the abstract values and the tree they unflatten into. -/
structure Tracer where
  avals : List AVal
  tree : PyTree

/-- Embeds `jax.core.get_aval(True)`: the abstract type of the Python boolean
`True` — a boolean scalar (weakly typed). -/
def boolTracerAVal : AVal := .shaped [] .bool true []

/-- Embeds `measure(wires)`: draws a fresh identifier
(`str(uuid.uuid4())[:8]`, modelled as the first 8 characters of the
externally drawn uuid string), constructs `MidCircuitMeasure` — which,
as a PennyLane operation, queues itself into the active context when
one exists — and only then checks whether the active context has a
`jax_tape`; with one, a boolean tracer for the outcome is returned,
otherwise `ValueError` is raised. -/
def measure (uuid4 : List Char) (wires : Nat) (ctx : Option QueuingContext) :
    Option QueuingContext × Except Err Tracer :=
  let measurement_id := uuid4.take 8
  let ctx := ctx.map fun c =>
    { c with queue := c.queue ++ [Op.midCircuitMeasure measurement_id wires] }
  match ctx with
  | some c =>
      if c.has_jax_tape then
        (some c, .ok ⟨[boolTracerAVal], .leaf⟩)
      else
        (some c, .error (.valueError
          "measure can only be used when it jitted mode"))
  | none =>
      (none, .error (.valueError
        "measure can only be used when it jitted mode"))

namespace QJITDevice

/-- Embeds `QJITDevice.operations`: the declared gate vocabulary. -/
def operations : List String :=
  ["MidCircuitMeasure", "Cond", "WhileLoop", "ForLoop", "PauliX", "PauliY",
   "PauliZ", "Hadamard", "Identity", "S", "T", "PhaseShift", "RX", "RY",
   "RZ", "CNOT", "CY", "CZ", "SWAP", "IsingXX", "IsingYY", "IsingXY",
   "IsingZZ", "ControlledPhaseShift", "CRX", "CRY", "CRZ", "CRot", "CSWAP",
   "MultiRZ", "QubitUnitary"]

/-- Embeds `QJITDevice.observables`: the declared observable vocabulary. -/
def observables : List String :=
  ["Identity", "PauliX", "PauliY", "PauliZ", "Hadamard", "Hermitian",
   "Hamiltonian"]

/-- Whether the device supports an operation, by name. -/
def supportsOp (op : Op) : Bool := operations.contains op.name

end QJITDevice

/-- The decomposition in force under the `Patcher` of
`default_expand_fn`: `qml.ops.ControlledQubitUnitary` (via
`_decomp_controlled_unitary`) and generic `qml.ops.Controlled` (via the
patched `decomposition`, with `has_decomposition` forced true) both
produce the single gate `qml.QubitUnitary(qml.matrix(self),
wires=self.wires)`; every other operation keeps the external PennyLane
decomposition `extDecomp`. -/
def patchedDecompose (extDecomp : Op → List Op) (op : Op) : List Op :=
  match op with
  | .controlledQubitUnitary ws => [.qubitUnitary ws]
  | .controlled _ ws => [.qubitUnitary ws]
  | _ => extDecomp op

/-- Modelled from the spec (section 4.7, step 3) and the PennyLane
interface: one step of the fixed-point expansion keeps supported
operations and replaces each unsupported one by its (patched)
decomposition. -/
def expandStep (extDecomp : Op → List Op) (ops : List Op) : List Op :=
  ops.flatMap fun op =>
    if QJITDevice.supportsOp op then [op] else patchedDecompose extDecomp op

/-- Modelled from the spec (section 4.7, step 3): the external
fixed-point expansion procedure of `super().default_expand_fn`, bounded
by `max_expansion` steps. -/
def expandTape (extDecomp : Op → List Op) : Nat → List Op → List Op
  | 0, ops => ops
  | n + 1, ops =>
      if ops.all QJITDevice.supportsOp then ops
      else expandTape extDecomp n (expandStep extDecomp ops)

/-- Modelled from the PennyLane interface
`Device.check_validity(queue, observables)`: every queued operation
must be in the declared operation vocabulary and every listed
observable in the declared observable vocabulary. -/
def check_validity (queue : List Op) (obs : List String) : Except Err Unit :=
  if queue.all QJITDevice.supportsOp ∧
      obs.all (fun o => QJITDevice.observables.contains o) then
    .ok ()
  else
    .error (.valueError "unsupported gate or observable")

/-- A recorded circuit handed to the device adapter: its operation
queue and the observables of its measurements. -/
structure Circuit where
  operations : List Op
  observables : List String

/-- Embeds `QJITDevice.default_expand_fn`: rejects any PennyLane `MidMeasureMP`
in the circuit (raising `TypeError` before any expansion), expands the
operations under the `Patcher` (controlled constructs become single
`QubitUnitary` gates), then calls
`self.check_validity(expanded_tape.operations, [])` — note the empty
observables list — and returns the expanded tape. -/
def QJITDevice.default_expand_fn (extDecomp : Op → List Op)
    (max_expansion : Nat) (circuit : Circuit) : Except Err Circuit :=
  if circuit.operations.any Op.isMidMeasureMP then
    .error (.typeError "Must use measure from Catalyst instead of PennyLane.")
  else
    let expanded_ops := expandTape extDecomp max_expansion circuit.operations
    match check_validity expanded_ops [] with
    | .error e => .error e
    | .ok _ => .ok ⟨expanded_ops, circuit.observables⟩

/-! ## Helper lemmas -/

theorem PyVal.flatten_tupleV_cons (x : PyVal) (xs : List PyVal) :
    (PyVal.tupleV (x :: xs)).flatten = x.flatten ++ (PyVal.tupleV xs).flatten :=
  rfl

theorem PyVal.flatten_tupleV_append (xs ys : List PyVal) :
    (PyVal.tupleV (xs ++ ys)).flatten =
      (PyVal.tupleV xs).flatten ++ (PyVal.tupleV ys).flatten := by
  induction xs with
  | nil => rfl
  | cons x xs ih =>
      simp only [List.cons_append, PyVal.flatten_tupleV_cons, ih,
        List.append_assoc]

/-! ## Claims -/

/-- C7: both the true branch callable passed to `cond` and any false
branch callable attached via `otherwise` must take zero explicit
arguments; a callable with one or more parameters is rejected with an
error at decoration time (no `CondCallable` is produced or updated), and
a zero-argument callable is accepted. -/
theorem C7_cond_branch_arity (pred : PyVal) (f : PyFunc)
    (c : CondCallableObj) :
    (f.argcount ≠ 0 →
      cond pred f = .error (.assertionError
        "conditional True function is not allowed to have any arguments") ∧
      c.otherwise f = .error (.assertionError
        "conditional False function is not allowed to have any arguments")) ∧
    (f.argcount = 0 →
      cond pred f = .ok ⟨pred, f, defaultFalseFn⟩ ∧
      c.otherwise f = .ok { c with false_fn := f }) := by
  constructor <;> intro h <;>
    simp [cond, CondCallableObj.otherwise, h]

/-- Witness for C7 at concrete inputs: a one-argument callable is
rejected, a zero-argument callable is accepted. -/
theorem C7_cond_branch_arity_witness :
    cond PyVal.noneV ⟨1⟩ = .error (.assertionError
      "conditional True function is not allowed to have any arguments") ∧
    cond PyVal.noneV ⟨0⟩ = .ok ⟨PyVal.noneV, ⟨0⟩, defaultFalseFn⟩ :=
  ⟨((C7_cond_branch_arity PyVal.noneV ⟨1⟩ ⟨PyVal.noneV, ⟨0⟩, ⟨0⟩⟩).1
      (by decide)).1,
   ((C7_cond_branch_arity PyVal.noneV ⟨0⟩ ⟨PyVal.noneV, ⟨0⟩, ⟨0⟩⟩).2
      rfl).1⟩

/-- C4: `grad` validates its configuration at construction time:
`method="ps"` on a plain (non-`QNode`) callable fails; `method="fd"`
with no step size defaults `h` to `1e-7`; a non-numeric step size
fails; an unspecified method behaves exactly as `method="fd"`; an
unspecified `argnum` behaves exactly as `[0]` and a single integer as
the one-element list. -/
theorem C4_grad_construction_validation :
    (∀ an, grad false (some "ps") HVal.noneH an = .error (.assertionError
      "Only finite difference can compute higher order derivatives.")) ∧
    (∀ fq an, ∃ g, grad fq (some "fd") HVal.noneH an = .ok g ∧
      g.h = .num default_fd_h) ∧
    (∀ fq an, grad fq (some "fd") (HVal.str "x") an =
      .error (.assertionError "invalid h value")) ∧
    (∀ fq h an, grad fq none h an = grad fq (some "fd") h an) ∧
    (∀ fq m h, grad fq m h .noneA = grad fq m h (.listA [0])) ∧
    (∀ fq m h n, grad fq m h (.intA n) = grad fq m h (.listA [n])) := by
  refine ⟨?_, ?_, ?_, ?_, ?_, ?_⟩
  · intro an; cases an <;> rfl
  · intro fq an
    cases fq <;> cases an <;> exact ⟨_, rfl, rfl⟩
  · intro fq an; cases fq <;> cases an <;> rfl
  · intro fq h an; rfl
  · intro fq m h; rfl
  · intro fq m h n; rfl

/-- C5: `Grad.__call__` succeeds exactly when the captured program has
one top-level equation whose primitive is the function-call primitive,
in which case the emitted gradient node carries the captured program,
method, step size and argument indices; otherwise an assertion is
raised. -/
theorem C5_grad_call_invariant (g : GradObj) (jaxpr : Jaxpr) :
    (jaxpr.eqns.length = 1 ∧ jaxpr.eqns.headI.primitive = Primitive.func →
      Grad.call g jaxpr = .ok ⟨jaxpr, g.method, g.h, g.argnum⟩) ∧
    (¬(jaxpr.eqns.length = 1 ∧ jaxpr.eqns.headI.primitive = Primitive.func) →
      ∃ msg, Grad.call g jaxpr = .error (.assertionError msg)) := by
  constructor
  · rintro ⟨h1, h2⟩
    simp [Grad.call, h1, h2]
  · intro h
    by_cases h1 : jaxpr.eqns.length = 1
    · have h2 : jaxpr.eqns.headI.primitive ≠ Primitive.func := fun hh =>
        h ⟨h1, hh⟩
      exact ⟨"Attempting to differentiate something other than a function",
        by simp [Grad.call, h1, h2]⟩
    · exact ⟨"Grad is not well defined", by simp [Grad.call, h1]⟩

/-- A sample constructed `Grad` object. -/
def gradObj0 : GradObj := ⟨.qnode, "fd", .num default_fd_h, [0]⟩

/-- A captured program that is exactly one function-call equation. -/
def jaxprFunc : Jaxpr := ⟨[⟨Primitive.func⟩], []⟩

/-- A captured program with no equation at all. -/
def jaxprEmpty : Jaxpr := ⟨[], []⟩

/-- Witness for C5 at concrete inputs: the single-function-call program
produces a gradient node, the empty program raises. -/
theorem C5_grad_call_invariant_witness :
    Grad.call gradObj0 jaxprFunc =
      .ok ⟨jaxprFunc, "fd", .num default_fd_h, [0]⟩ ∧
    ∃ msg, Grad.call gradObj0 jaxprEmpty = .error (.assertionError msg) :=
  ⟨(C5_grad_call_invariant gradObj0 jaxprFunc).1 (by decide),
   (C5_grad_call_invariant gradObj0 jaxprEmpty).2 (by decide)⟩

/-- A successful `_create_jaxpr` requires the predicate capture to pass
all four checks. -/
theorem WhileCallable.create_jaxpr_ok_inv (init_val : PyVal)
    (condCap bodyCap : Capture)
    (r : Jaxpr × Jaxpr × List PyVal × List PyVal × PyTree)
    (h : WhileCallable.create_jaxpr init_val condCap bodyCap = .ok r) :
    condCap.tree.isLeaf = true ∧
    condCap.jaxpr.out_avals.length = 1 ∧
    condCap.jaxpr.out_avals.headI.isShapedArray = true ∧
    condCap.jaxpr.out_avals.headI.stripWeakType.stripNamedShape =
      boolScalarAVal := by
  unfold WhileCallable.create_jaxpr at h
  simp only [] at h
  split_ifs at h with hA hB
  push_neg at hA hB
  exact ⟨by simpa using hA.1, hA.2, by simpa using hB.1, hB.2⟩

/-- A predicate capture violating the length or boolean-scalar
conditions makes `_create_jaxpr` raise a `TypeError`. -/
theorem WhileCallable.create_jaxpr_typeError (init_val : PyVal)
    (condCap bodyCap : Capture)
    (h : condCap.jaxpr.out_avals.length ≠ 1 ∨
      condCap.jaxpr.out_avals.headI.isShapedArray = false ∨
      condCap.jaxpr.out_avals.headI.stripWeakType.stripNamedShape ≠
        boolScalarAVal) :
    ∃ m, WhileCallable.create_jaxpr init_val condCap bodyCap =
      .error (.typeError m) := by
  unfold WhileCallable.create_jaxpr
  simp only []
  split_ifs with hA hB
  · exact ⟨"cond_fun must return a boolean scalar, but got pytree", rfl⟩
  · exact ⟨"cond_fun must return a boolean scalar, but got output type", rfl⟩
  · exfalso
    push_neg at hA hB
    rcases h with h | h | h
    · exact h hA.2
    · rw [hB.1] at h; cases h
    · exact h hB.2

/-- C3: a while-loop invocation (in either mode) succeeds only if the
captured predicate sub-program has exactly one output of boolean-scalar
abstract type, and a predicate capture violating either condition makes
the invocation fail with a `TypeError` — an error result, so no
`WhileLoop` node or `qwhile` primitive is emitted. -/
theorem C3_while_predicate_check (args : List PyVal)
    (condCap bodyCap : Capture) :
    (∀ node, WhileCallable.call_with_classical_ctx args condCap bodyCap =
        .ok node →
      condCap.jaxpr.out_avals.length = 1 ∧
      condCap.jaxpr.out_avals.headI.isShapedArray = true ∧
      condCap.jaxpr.out_avals.headI.stripWeakType.stripNamedShape =
        boolScalarAVal) ∧
    (∀ node, WhileCallable.call_with_quantum_ctx args condCap bodyCap =
        .ok node →
      condCap.jaxpr.out_avals.length = 1 ∧
      condCap.jaxpr.out_avals.headI.isShapedArray = true ∧
      condCap.jaxpr.out_avals.headI.stripWeakType.stripNamedShape =
        boolScalarAVal) ∧
    (condCap.jaxpr.out_avals.length ≠ 1 ∨
      condCap.jaxpr.out_avals.headI.isShapedArray = false ∨
      condCap.jaxpr.out_avals.headI.stripWeakType.stripNamedShape ≠
        boolScalarAVal →
      (∃ m, WhileCallable.call_with_classical_ctx args condCap bodyCap =
        .error (.typeError m)) ∧
      (∃ m, WhileCallable.call_with_quantum_ctx args condCap bodyCap =
        .error (.typeError m))) := by
  refine ⟨?_, ?_, ?_⟩
  · intro node h
    unfold WhileCallable.call_with_classical_ctx at h
    cases hc : WhileCallable.create_jaxpr (.tupleV args) condCap bodyCap with
    | error e => rw [hc] at h; exact Except.noConfusion h
    | ok r =>
        obtain ⟨_, h2, h3, h4⟩ :=
          WhileCallable.create_jaxpr_ok_inv _ _ _ _ hc
        exact ⟨h2, h3, h4⟩
  · intro node h
    unfold WhileCallable.call_with_quantum_ctx at h
    cases hc : WhileCallable.create_jaxpr
        (WhileCallable.quantum_init_val args) condCap bodyCap with
    | error e => rw [hc] at h; exact Except.noConfusion h
    | ok r =>
        obtain ⟨_, h2, h3, h4⟩ :=
          WhileCallable.create_jaxpr_ok_inv _ _ _ _ hc
        exact ⟨h2, h3, h4⟩
  · intro h
    constructor
    · obtain ⟨m, hm⟩ :=
        WhileCallable.create_jaxpr_typeError (.tupleV args) condCap bodyCap h
      exact ⟨m, by unfold WhileCallable.call_with_classical_ctx; rw [hm]⟩
    · obtain ⟨m, hm⟩ := WhileCallable.create_jaxpr_typeError
        (WhileCallable.quantum_init_val args) condCap bodyCap h
      exact ⟨m, by unfold WhileCallable.call_with_quantum_ctx; rw [hm]⟩

/-- A predicate capture returning one boolean scalar (leaf tree). -/
def capPredBool : Capture := ⟨⟨[], [boolScalarAVal]⟩, [], .leaf⟩

/-- A predicate capture returning no outputs at all. -/
def capPredEmpty : Capture := ⟨⟨[], []⟩, [], .leaf⟩

/-- A body capture with no outputs. -/
def capBody0 : Capture := ⟨⟨[], []⟩, [], .leaf⟩

/-- Witness for C3 at concrete inputs: a good predicate passes the
checks, an empty-output predicate makes both modes raise `TypeError`. -/
theorem C3_while_predicate_check_witness :
    (capPredBool.jaxpr.out_avals.length = 1 ∧
      capPredBool.jaxpr.out_avals.headI.isShapedArray = true ∧
      capPredBool.jaxpr.out_avals.headI.stripWeakType.stripNamedShape =
        boolScalarAVal) ∧
    (∃ m, WhileCallable.call_with_classical_ctx [] capPredEmpty capBody0 =
      .error (.typeError m)) :=
  ⟨(C3_while_predicate_check [] capPredBool capBody0).1 _ rfl,
   ((C3_while_predicate_check [] capPredEmpty capBody0).2.2
      (by decide)).1⟩

/-- C9: in quantum mode the while-loop predicate sub-program is captured
over the full loop-carried state with the register appended as its last
abstract input, yet the wrapper `new_cond` applies the user predicate
only to the non-register arguments, so its result is identical for any
two register values given equal remaining arguments. -/
theorem C9_while_predicate_register_independent (f : List PyVal → PyVal)
    (args : List PyVal) (q1 q2 : PyVal) :
    WhileCallable.quantum_capture_avals args =
      ((PyVal.tupleV args).flatten).map abstractify ++ [AVal.qreg] ∧
    WhileCallable.new_cond f (args ++ [q1]) =
      WhileCallable.new_cond f (args ++ [q2]) := by
  constructor
  · unfold WhileCallable.quantum_capture_avals WhileCallable.quantum_init_val
    rw [PyVal.flatten_tupleV_append]
    simp [PyVal.flatten, PyVal.flattenList, abstractify, QregV]
  · unfold WhileCallable.new_cond
    rw [List.dropLast_concat, List.dropLast_concat]

/-- The captured true branch of `cond(pred)(lambda: 1.0)`-style code in
classical mode: one floating-point scalar output. -/
def trueCapOneF64 : Capture :=
  ⟨⟨[], [AVal.shaped [] .f64 false []]⟩, [], .leaf⟩

/-- The captured default false branch `lambda: None`: no outputs. -/
def falseCapNone : Capture := ⟨⟨[], []⟩, [], .noneNode⟩

/-- C1 evaluation at the failing input: the two branch captures have
different output types (one value versus none), yet
`check_branches_return_types` compares `out_avals[:-1]`, which drops
the only user output in classical mode, so the call succeeds and the
`Conditional` node is emitted instead of raising `TypeError`. -/
theorem C1_cond_last_slot_mismatch_not_detected :
    trueCapOneF64.jaxpr.out_avals ≠ falseCapNone.jaxpr.out_avals ∧
    CondCallable.call_with_classical_ctx (PyVal.leafV boolScalarAVal)
        trueCapOneF64 falseCapNone [] =
      .ok ⟨PyVal.leafV boolScalarAVal, [], trueCapOneF64.jaxpr,
        falseCapNone.jaxpr, .leaf⟩ := by
  constructor
  · decide
  · rfl

/-- The lower bound of `for_loop(0, 5, 1)`: a weakly typed integer
scalar. -/
def lbIdx : PyVal := .leafV (.shaped [] .i64 true [])

/-- The upper bound value. -/
def ubIdx : PyVal := .leafV (.shaped [] .i64 true [])

/-- The step value. -/
def stIdx : PyVal := .leafV (.shaped [] .i64 true [])

/-- A single loop-carried floating-point scalar. -/
def argF64 : PyVal := .leafV (.shaped [] .f64 false [])

/-- A body capture for the counted loop. -/
def capFor : Capture := ⟨⟨[], []⟩, [], .leaf⟩

/-- C2 counterexample: for a counted loop with one loop-carried scalar,
the emitted node records `iter_args = [lower_bound, arg]` — the
iteration-index slot (initialized to the lower bound) is included — and
not the flattened user arguments alone, refuting the claim that the
initial loop-carried values never include the iteration index. -/
theorem C2_for_loop_index_in_iter_args :
    (ForLoopCallable.call_with_quantum_ctx lbIdx ubIdx stIdx [argF64]
        capFor).node.iter_args = [lbIdx, argF64] ∧
    (ForLoopCallable.call_with_quantum_ctx lbIdx ubIdx stIdx [argF64]
        capFor).node.iter_args ≠ (PyVal.tupleV [argF64]).flatten := by
  constructor
  · rfl
  · have h1 : (ForLoopCallable.call_with_quantum_ctx lbIdx ubIdx stIdx
        [argF64] capFor).node.iter_args = [lbIdx, argF64] := rfl
    have h2 : (PyVal.tupleV [argF64]).flatten = [argF64] := rfl
    rw [h1, h2]
    intro hcon
    have hlen := congrArg List.length hcon
    simp at hlen

/-- C2 as amended: the emitted node carries the three bounds; its
initial loop-carried values are the lower bound (the index slot)
followed by the flattened user arguments; the body sub-program is
captured with the index — typed like the lower bound — as its first
input; classical mode binds `qfor` with the bounds, the captured
constants, and the same index-including initial values. -/
theorem C2_for_loop_emission (a : AVal) (upper_bound step : PyVal)
    (args : List PyVal) (cap : Capture) :
    (ForLoopCallable.call_with_quantum_ctx (.leafV a) upper_bound step args
        cap).node.loop_bounds = [.leafV a, upper_bound, step] ∧
    (ForLoopCallable.call_with_quantum_ctx (.leafV a) upper_bound step args
        cap).node.iter_args = .leafV a :: (PyVal.tupleV args).flatten ∧
    (ForLoopCallable.call_with_quantum_ctx (.leafV a) upper_bound step args
        cap).body_capture_avals.headI = a ∧
    (ForLoopCallable.call_with_classical_ctx (.leafV a) upper_bound step args
        cap).call.inputs = [.leafV a, upper_bound, step] ++ cap.consts ++
      (.leafV a :: (PyVal.tupleV args).flatten) ∧
    (ForLoopCallable.call_with_classical_ctx (.leafV a) upper_bound step args
        cap).body_capture_avals.headI = a :=
  ⟨rfl, rfl, rfl, rfl, rfl⟩

/-- C6: `measure` with no active context, or with a context lacking
`jax_tape` support, raises the usage `ValueError`; inside a context
with tracing support it queues a `MidCircuitMeasure` tagged with the
first 8 characters of the fresh uuid and returns a boolean-typed
tracer; the identifier has exactly 8 characters whenever the uuid
string is long enough, and the measurement node is single-qubit. -/
theorem C6_measure_context_and_emission (uuid4 : List Char) (w : Nat)
    (c : QueuingContext) :
    (measure uuid4 w none).2 = .error (.valueError
      "measure can only be used when it jitted mode") ∧
    (c.has_jax_tape = false →
      (measure uuid4 w (some c)).2 = .error (.valueError
        "measure can only be used when it jitted mode")) ∧
    (c.has_jax_tape = true →
      measure uuid4 w (some c) =
        (some ⟨c.queue ++ [.midCircuitMeasure (uuid4.take 8) w], true⟩,
         .ok ⟨[boolTracerAVal], .leaf⟩)) ∧
    (8 ≤ uuid4.length → (uuid4.take 8).length = 8) ∧
    MidCircuitMeasure.num_wires = 1 := by
  refine ⟨rfl, ?_, ?_, ?_, rfl⟩
  · intro h
    simp [measure, h]
  · intro h
    simp [measure, h]
  · intro h
    simp [List.length_take]
    omega

/-- A sample externally drawn uuid string. -/
def uuidSample : List Char :=
  ['8', 'f', '1', '4', 'e', '4', '5', 'f', '-', 'c', 'e', 'a']

/-- Witness for C6 at concrete inputs: inside a tracing context the
measurement is queued with an 8-character identifier and a boolean
tracer is returned. -/
theorem C6_measure_context_and_emission_witness :
    measure uuidSample 0 (some ⟨[], true⟩) =
      (some ⟨[.midCircuitMeasure (uuidSample.take 8) 0], true⟩,
       .ok ⟨[boolTracerAVal], .leaf⟩) ∧
    (uuidSample.take 8).length = 8 :=
  ⟨(C6_measure_context_and_emission uuidSample 0 ⟨[], true⟩).2.2.1 rfl,
   (C6_measure_context_and_emission uuidSample 0 ⟨[], true⟩).2.2.2.1
     (by decide)⟩

/-- C10: when a queuing context is active but lacks tracing support,
`measure` still constructs and queues the `MidCircuitMeasure` (with its
fresh identifier) before raising the usage `ValueError`, so the failing
call leaves the context with a strictly longer queue. -/
theorem C10_measure_queues_before_error (uuid4 : List Char) (w : Nat)
    (c : QueuingContext) (h : c.has_jax_tape = false) :
    measure uuid4 w (some c) =
      (some ⟨c.queue ++ [.midCircuitMeasure (uuid4.take 8) w], false⟩,
       .error (.valueError "measure can only be used when it jitted mode")) ∧
    ∀ c2, (measure uuid4 w (some c)).1 = some c2 → c2.queue ≠ c.queue := by
  have h1 : measure uuid4 w (some c) =
      (some ⟨c.queue ++ [.midCircuitMeasure (uuid4.take 8) w], false⟩,
       .error (.valueError "measure can only be used when it jitted mode")) := by
    simp [measure, h]
  refine ⟨h1, ?_⟩
  intro c2 h2
  rw [h1] at h2
  injection h2 with h2
  subst h2
  intro hq
  have hlen := congrArg List.length hq
  simp at hlen

/-- Witness for C10 at concrete inputs. -/
theorem C10_measure_queues_before_error_witness :
    measure uuidSample 0 (some ⟨[], false⟩) =
      (some ⟨[.midCircuitMeasure (uuidSample.take 8) 0], false⟩,
       .error (.valueError "measure can only be used when it jitted mode")) :=
  (C10_measure_queues_before_error uuidSample 0 ⟨[], false⟩ rfl).1

/-- Inverting a successful vocabulary check. -/
theorem check_validity_ok_inv (queue : List Op) (obs : List String)
    (h : check_validity queue obs = .ok ()) :
    queue.all QJITDevice.supportsOp = true ∧
    obs.all (fun o => QJITDevice.observables.contains o) = true := by
  unfold check_validity at h
  split_ifs at h with hc
  exact ⟨hc.1, hc.2⟩

/-- C8 as amended: a foreign `MidMeasureMP` in the circuit makes
`default_expand_fn` fail (with a `TypeError`) before any expansion;
under the patch both controlled-unitary constructs decompose directly
into a single explicit unitary-matrix gate over their wires; a
successful result consists exactly of the expanded operations, all of
which are in the declared operation vocabulary; and when the expanded
operations still contain an unsupported one, the call fails — but only
the operations are validated (the observables list handed to the check
is empty). -/
theorem C8_device_expansion_policy (extDecomp : Op → List Op) (n : Nat)
    (circuit : Circuit) :
    (circuit.operations.any Op.isMidMeasureMP = true →
      QJITDevice.default_expand_fn extDecomp n circuit =
        .error (.typeError
          "Must use measure from Catalyst instead of PennyLane.")) ∧
    (∀ b ws, patchedDecompose extDecomp (.controlled b ws) =
      [.qubitUnitary ws]) ∧
    (∀ ws, patchedDecompose extDecomp (.controlledQubitUnitary ws) =
      [.qubitUnitary ws]) ∧
    (∀ t, QJITDevice.default_expand_fn extDecomp n circuit = .ok t →
      t.operations.all QJITDevice.supportsOp = true ∧
      t.operations = expandTape extDecomp n circuit.operations ∧
      t.observables = circuit.observables) ∧
    (circuit.operations.any Op.isMidMeasureMP = false →
      (expandTape extDecomp n circuit.operations).all
        QJITDevice.supportsOp = false →
      QJITDevice.default_expand_fn extDecomp n circuit =
        .error (.valueError "unsupported gate or observable")) := by
  refine ⟨?_, ?_, ?_, ?_, ?_⟩
  · intro h
    simp [QJITDevice.default_expand_fn, h]
  · intro b ws; rfl
  · intro ws; rfl
  · intro t ht
    unfold QJITDevice.default_expand_fn at ht
    by_cases hm : circuit.operations.any Op.isMidMeasureMP
    · rw [if_pos hm] at ht
      exact Except.noConfusion ht
    · rw [if_neg hm] at ht
      simp only [] at ht
      cases hv : check_validity
          (expandTape extDecomp n circuit.operations) [] with
      | error e => rw [hv] at ht; exact Except.noConfusion ht
      | ok u =>
          rw [hv] at ht
          injection ht with ht
          subst ht
          obtain ⟨hall, _⟩ := check_validity_ok_inv _ _ hv
          exact ⟨hall, rfl, rfl⟩
  · intro h1 h2
    unfold QJITDevice.default_expand_fn
    rw [if_neg (by simp [h1])]
    have hv : check_validity (expandTape extDecomp n circuit.operations) [] =
        .error (.valueError "unsupported gate or observable") := by
      unfold check_validity
      rw [if_neg]
      simp [h2]
    simp only []
    rw [hv]

/-- An external decomposition that returns the operation unchanged. -/
def extIdDecomp : Op → List Op := fun op => [op]

/-- A circuit containing the foreign PennyLane measurement. -/
def circMid : Circuit := ⟨[.midMeasureMP 0], []⟩

/-- A circuit containing a gate outside the declared vocabulary. -/
def circUnsup : Circuit := ⟨[.gate "Toffoli" [0, 1, 2]], []⟩

/-- Witness for C8 at concrete inputs: the foreign measurement and the
unsupported gate each make the expansion fail. -/
theorem C8_device_expansion_policy_witness :
    QJITDevice.default_expand_fn extIdDecomp 1 circMid =
      .error (.typeError
        "Must use measure from Catalyst instead of PennyLane.") ∧
    QJITDevice.default_expand_fn extIdDecomp 1 circUnsup =
      .error (.valueError "unsupported gate or observable") :=
  ⟨(C8_device_expansion_policy extIdDecomp 1 circMid).1 (by decide),
   (C8_device_expansion_policy extIdDecomp 1 circUnsup).2.2.2.2
     (by decide) (by decide)⟩

/-- A circuit whose operations are supported but whose observable list
contains a name outside the declared observable vocabulary. -/
def circObsUnsup : Circuit := ⟨[.gate "PauliX" [0]], ["Projector"]⟩

/-- C8 counterexample: `check_validity` is called with an empty
observables list, so a circuit carrying an observable outside the
declared vocabulary still expands successfully — the claim that every
remaining observable is validated fails. -/
theorem C8_observables_not_validated :
    QJITDevice.observables.contains "Projector" = false ∧
    QJITDevice.default_expand_fn extIdDecomp 1 circObsUnsup =
      .ok ⟨[.gate "PauliX" [0]], ["Projector"]⟩ := by
  constructor
  · decide
  · rfl

end Catalyst

